import Mathlib

/-!
Shallow embedding of the Poseidon scheduling bridge entrypoint
(`cmd/poseidon/poseidon.go`): the delta dispatcher (`schedule`), the
readiness gate (`WaitForFirmamentService`), and the flag-based
configuration surface (`init`).  Collaborator calls (`k8sclient.BindPodToNode`,
`k8sclient.DeletePod`) are recorded as a trace; `glog.Fatalf` is modelled as a
terminating outcome carrying the message family, since it aborts the process.
-/

/-- Workload identifier from pkg/k8sclient: the dispatcher reads
`podIdentifier.Name` and `podIdentifier.Namespace`. -/
structure PodIdentifier where
  Name : String
  Namespace : String
deriving DecidableEq

/-- Modelled from the spec: the enum value of `SchedulingDelta_PLACE` in the
engine RPC surface (the firmament proto, not under src/): PLACE = 0. -/
def SchedulingDelta_PLACE : Int := 0

/-- Modelled from the spec: PREEMPT = 1. -/
def SchedulingDelta_PREEMPT : Int := 1

/-- Modelled from the spec: MIGRATE = 2. -/
def SchedulingDelta_MIGRATE : Int := 2

/-- Modelled from the spec: NOOP = 3. -/
def SchedulingDelta_NOOP : Int := 3

/-- One scheduling decision from the remote engine: `delta.GetType()` (a proto
enum, an int32 that may carry any value), `delta.GetTaskId()` (uint64),
`delta.GetResourceId()` (string). -/
structure SchedulingDelta where
  type : Int
  taskId : Nat
  resourceId : String
deriving DecidableEq

/-- The two global registry maps of pkg/k8sclient read by `schedule`:
`TaskIDToPod : map[uint64]PodIdentifier` and `ResIDToNode : map[string]string`,
modelled as association lists. -/
structure K8sState where
  TaskIDToPod : List (Nat × PodIdentifier)
  ResIDToNode : List (String × String)
deriving DecidableEq

/-- Map lookup `k8sclient.TaskIDToPod[taskId]` (performed under `PodMux.RLock`). -/
def lookupTask (s : K8sState) (t : Nat) : Option PodIdentifier :=
  (s.TaskIDToPod.find? (fun p => p.1 == t)).map (fun p => p.2)

/-- Map lookup `k8sclient.ResIDToNode[resourceId]` (performed under `NodeMux.RLock`). -/
def lookupRes (s : K8sState) (r : String) : Option String :=
  (s.ResIDToNode.find? (fun p => p.1 == r)).map (fun p => p.2)

/-- An orchestrator collaborator call issued by the dispatcher. -/
inductive Call where
  | BindPodToNode (name ns node : String)
  | DeletePod (name ns : String)
deriving DecidableEq

/-- A `glog.Fatalf` site reached by `schedule`; each constructor is one of the
four fatal messages in the source.  `glog.Fatalf` terminates the process. -/
inductive Fatal where
  | placedTaskWithoutPodPairing (taskId : Nat)
  | placedTaskWithoutNodePairing (taskId : Nat) (resourceId : String)
  | preemptedTaskWithoutPodPairing (taskId : Nat)
  | unexpectedSchedulingDeltaType (t : Int)
deriving DecidableEq

/-- Outcome of dispatching: the registry state afterwards, the ordered trace of
collaborator calls made, and `some f` when the process was terminated by
`glog.Fatalf` (in which case no further calls are made). -/
structure StepResult where
  state : K8sState
  calls : List Call
  fatal : Option Fatal
deriving DecidableEq

/-- The body of the `switch delta.GetType()` statement in `schedule`,
dispatching one delta against the registry state. -/
def processDelta (s : K8sState) (d : SchedulingDelta) : StepResult :=
  if d.type = SchedulingDelta_PLACE then
    match lookupTask s d.taskId with
    | none => ⟨s, [], some (Fatal.placedTaskWithoutPodPairing d.taskId)⟩
    | some pod =>
      match lookupRes s d.resourceId with
      | none => ⟨s, [], some (Fatal.placedTaskWithoutNodePairing d.taskId d.resourceId)⟩
      | some nodeName => ⟨s, [Call.BindPodToNode pod.Name pod.Namespace nodeName], none⟩
  else if d.type = SchedulingDelta_PREEMPT ∨ d.type = SchedulingDelta_MIGRATE then
    match lookupTask s d.taskId with
    | none => ⟨s, [], some (Fatal.preemptedTaskWithoutPodPairing d.taskId)⟩
    | some pod => ⟨s, [Call.DeletePod pod.Name pod.Namespace], none⟩
  else if d.type = SchedulingDelta_NOOP then
    ⟨s, [], none⟩
  else
    ⟨s, [], some (Fatal.unexpectedSchedulingDeltaType d.type)⟩

/-- The `for _, delta := range deltas.GetDeltas()` loop of `schedule`: deltas
are applied strictly sequentially in engine-returned order; a `glog.Fatalf`
terminates the process, so no later delta of the batch is applied. -/
def processDeltas (s : K8sState) : List SchedulingDelta → StepResult
  | [] => ⟨s, [], none⟩
  | d :: ds =>
    match processDelta s d with
    | ⟨s1, cs, some f⟩ => ⟨s1, cs, some f⟩
    | ⟨s1, cs, none⟩ =>
      match processDeltas s1 ds with
      | ⟨s2, cs2, f2⟩ => ⟨s2, cs ++ cs2, f2⟩

/-- The configuration flags declared in `init()` of cmd/poseidon/poseidon.go,
as (flag name, default value rendered as a string).  This is the whole
process-start configuration surface of the bridge. -/
def configFlags : List (String × String) :=
  [("schedulerName", "poseidon"),
   ("firmamentAddress", "firmament-service.kube-system"),
   ("firmamentPort", "9090"),
   ("pprofAddress", "0.0.0.0:8989"),
   ("kubeConfig", "kubeconfig.cfg"),
   ("kubeVersion", "1.6"),
   ("statsServerAddress", "0.0.0.0:9091"),
   ("schedulingInterval", "10"),
   ("enablePprof", "false")]

/-- Outcome of one `firmament.Check` health probe: a transport error, or a
boolean health answer. -/
inductive CheckOutcome where
  | err
  | ok (healthy : Bool)
deriving DecidableEq

/-- Modelled from the spec: `firmament.Check` (pkg/firmament, not under src/)
returns `(ok, err)` with ok = false on a transport error; the gate's condition
function discards the error value (`ok, _ :=`) and returns `!ok ? false : true`. -/
def checkToBool : CheckOutcome → Bool
  | CheckOutcome.err => false
  | CheckOutcome.ok h => h

/-- The poll interval passed to `wait.PollImmediate`, in seconds: `2*time.Second`. -/
def firmamentPollIntervalSec : Nat := 2

/-- The timeout passed to `wait.PollImmediate`, in seconds: `10*time.Minute`. -/
def firmamentTimeoutSec : Nat := 600

/-- Models k8s.io/apimachinery `wait.PollImmediate`, probe loop: `cond k` is the
result of the (k+1)-th probe invocation, made at elapsed time `k * interval`;
when it is true the poll succeeds returning that elapsed time, and when the
fuel (the number of probes that fit in the timeout window) is exhausted the
poll times out. -/
def pollImmediateGo (interval : Nat) (cond : Nat → Bool) : Nat → Nat → Option Nat
  | 0, _ => none
  | fuel + 1, k => if cond k then some (k * interval) else pollImmediateGo interval cond fuel (k + 1)

/-- Models k8s.io/apimachinery `wait.PollImmediate(interval, timeout, cond)`:
the condition is invoked immediately (at elapsed time 0), then once per
interval tick, until it returns true or the timeout elapses; `some t` is
success at elapsed time `t`, `none` is the timeout error. -/
def pollImmediate (interval timeout : Nat) (cond : Nat → Bool) : Option Nat :=
  pollImmediateGo interval cond (timeout / interval + 1) 0

/-- Result of the readiness gate: ready after a given elapsed time, or the
`glog.Fatalf` on timeout, which terminates the process. -/
inductive GateResult where
  | ready (elapsed : Nat)
  | fatalTimeout
deriving DecidableEq

/-- `WaitForFirmamentService`: blocks until the Firmament service answers a
health probe positively, polling every 2 seconds with a 10-minute timeout via
`wait.PollImmediate`; on timeout it calls `glog.Fatalf`. -/
def WaitForFirmamentService (check : Nat → CheckOutcome) : GateResult :=
  match pollImmediate firmamentPollIntervalSec firmamentTimeoutSec
      (fun k => checkToBool (check k)) with
  | some t => GateResult.ready t
  | none => GateResult.fatalTimeout

/-- Registry with TaskID 5 → (podA, nsA) and ResourceID r1 → nodeX, the
example state of the spec's testable properties. -/
def regA : K8sState :=
  ⟨[(5, ⟨"podA", "nsA"⟩)], [("r1", "nodeX")]⟩

/-- Registry with TaskID 1 → (podA, nsA) and ResourceID r1 → nodeX. -/
def reg1 : K8sState :=
  ⟨[(1, ⟨"podA", "nsA"⟩)], [("r1", "nodeX")]⟩

-- Helper lemmas shared by several claims.

/-- Dispatching a single delta never writes the registry maps: every branch of
the switch returns the state unchanged. -/
theorem processDelta_state (s : K8sState) (d : SchedulingDelta) :
    (processDelta s d).state = s := by
  unfold processDelta
  repeat' split
  all_goals rfl

/-- Dispatching a batch never writes the registry maps. -/
theorem processDeltas_state (s : K8sState) (ds : List SchedulingDelta) :
    (processDeltas s ds).state = s := by
  induction ds generalizing s with
  | nil => rfl
  | cons d ds ih =>
    have hs := processDelta_state s d
    rcases h : processDelta s d with ⟨s1, cs, _ | f⟩ <;> rw [h] at hs <;>
      simp only [processDeltas, h]
    · rw [ih s1]; exact hs
    · exact hs

/-- `pollImmediateGo` times out exactly when every probe within the fuel window
answers false. -/
theorem pollImmediateGo_eq_none (i : Nat) (cond : Nat → Bool) (fuel k : Nat) :
    pollImmediateGo i cond fuel k = none ↔ ∀ j, j < fuel → cond (k + j) = false := by
  induction fuel generalizing k with
  | zero => simp [pollImmediateGo]
  | succ fuel ih =>
    unfold pollImmediateGo
    by_cases hc : cond k
    · simp only [hc, if_true]
      constructor
      · intro h; exact absurd h (by simp)
      · intro h
        have := h 0 (Nat.succ_pos fuel)
        simp [hc] at this
    · simp only [hc, if_false, Bool.false_eq_true]
      rw [ih (k + 1)]
      constructor
      · intro h j hj
        cases j with
        | zero => simpa using hc
        | succ j =>
          have := h j (Nat.lt_of_succ_lt_succ hj)
          simpa [Nat.add_assoc, Nat.add_comm 1 j] using this
      · intro h j hj
        have := h (j + 1) (Nat.succ_lt_succ hj)
        simpa [Nat.add_assoc, Nat.add_comm 1 j] using this

-- Claim theorems.

/-- C1 (amended): for every PLACE delta whose taskID is absent from the
workload mapping, or whose resourceID is absent from the host mapping,
dispatching makes no orchestrator collaborator call and terminates the process
through `glog.Fatalf` (the fatal outcome is set). -/
theorem C1_place_missing_pairing_fatal_no_calls (s : K8sState) (d : SchedulingDelta)
    (hd : d.type = SchedulingDelta_PLACE)
    (h : lookupTask s d.taskId = none ∨ lookupRes s d.resourceId = none) :
    (processDelta s d).calls = [] ∧ (processDelta s d).fatal.isSome = true := by
  rcases h with h | h
  · simp [processDelta, hd, h]
  · cases h1 : lookupTask s d.taskId with
    | none => simp [processDelta, hd, h1]
    | some pod => simp [processDelta, hd, h1, h]

/-- C1 witness: dispatching delta{PLACE, 99, r1} against regA (TaskID 99
unregistered) makes no collaborator call and reaches a fatal outcome. -/
theorem C1_place_missing_pairing_fatal_no_calls_witness :
    (processDelta regA ⟨SchedulingDelta_PLACE, 99, "r1"⟩).calls = [] ∧
      (processDelta regA ⟨SchedulingDelta_PLACE, 99, "r1"⟩).fatal.isSome = true :=
  C1_place_missing_pairing_fatal_no_calls regA ⟨SchedulingDelta_PLACE, 99, "r1"⟩ rfl
    (Or.inl rfl)

/-- C1 counterexample: the claim says the broken invariant is surfaced as a
structured, reportable error value to the caller, not hard-coded process
termination.  In the code, dispatching delta{PLACE, 99, r1} with TaskID 99
unregistered reaches `glog.Fatalf("Placed task %d without pod pairing", ...)`,
which terminates the process: the fatal outcome is set, and no error value is
returned to a caller. -/
theorem C1_place_missing_pairing_is_process_fatal :
    (processDelta regA ⟨SchedulingDelta_PLACE, 99, "r1"⟩).fatal =
      some (Fatal.placedTaskWithoutPodPairing 99) ∧
    (processDelta regA ⟨SchedulingDelta_PLACE, 99, "r1"⟩).fatal ≠ none := by
  decide

/-- C2: for every registry state containing TaskID 5 → (podA, nsA) and
ResourceID r1 → nodeX, dispatching delta{PLACE, 5, r1} yields exactly the
call trace [BindPodToNode podA nsA nodeX] — one bind, no removal — with no
fatal outcome and the registry unchanged. -/
theorem C2_place_binds_once (s : K8sState)
    (h1 : lookupTask s 5 = some ⟨"podA", "nsA"⟩)
    (h2 : lookupRes s "r1" = some "nodeX") :
    processDelta s ⟨SchedulingDelta_PLACE, 5, "r1"⟩ =
      ⟨s, [Call.BindPodToNode "podA" "nsA" "nodeX"], none⟩ := by
  simp [processDelta, h1, h2]

/-- C2 witness: the concrete registry regA. -/
theorem C2_place_binds_once_witness :
    processDelta regA ⟨SchedulingDelta_PLACE, 5, "r1"⟩ =
      ⟨regA, [Call.BindPodToNode "podA" "nsA" "nodeX"], none⟩ :=
  C2_place_binds_once regA rfl rfl

/-- C3 (amended): for every delta whose kind is outside {PLACE, PREEMPT,
MIGRATE, NOOP}, the dispatcher reaches `glog.Fatalf("Unexpected
SchedulingDelta type ...")`, terminating the process: the offending delta
causes no collaborator call and no remaining delta of the batch is applied. -/
theorem C3_unknown_kind_fatal_stops_batch (s : K8sState) (d : SchedulingDelta)
    (ds : List SchedulingDelta)
    (h0 : d.type ≠ SchedulingDelta_PLACE) (h1 : d.type ≠ SchedulingDelta_PREEMPT)
    (h2 : d.type ≠ SchedulingDelta_MIGRATE) (h3 : d.type ≠ SchedulingDelta_NOOP) :
    processDeltas s (d :: ds) =
      ⟨s, [], some (Fatal.unexpectedSchedulingDeltaType d.type)⟩ := by
  simp [processDeltas, processDelta, h0, h1, h2, h3]

/-- C3 witness: a batch headed by a delta of unknown kind 7 followed by a
well-formed PLACE delta ends with the fatal outcome and an empty trace. -/
theorem C3_unknown_kind_fatal_stops_batch_witness :
    processDeltas reg1 [⟨7, 0, ""⟩, ⟨SchedulingDelta_PLACE, 1, "r1"⟩] =
      ⟨reg1, [], some (Fatal.unexpectedSchedulingDeltaType 7)⟩ :=
  C3_unknown_kind_fatal_stops_batch reg1 ⟨7, 0, ""⟩ [⟨SchedulingDelta_PLACE, 1, "r1"⟩]
    (by decide) (by decide) (by decide) (by decide)

/-- C3 counterexample: the claim says an unknown-kind delta is skipped and every
remaining delta in the batch is still applied.  In the code, for the batch
[{kind 7}, {PLACE, 1, r1}] over reg1 (both mappings registered), the remaining
PLACE delta is never applied — the call trace is empty instead of containing
the bind call — because the unknown kind hits `glog.Fatalf`, a fatal outcome
rather than a non-fatal reportable error. -/
theorem C3_unknown_kind_not_skipped :
    (processDeltas reg1 [⟨7, 0, ""⟩, ⟨SchedulingDelta_PLACE, 1, "r1"⟩]).calls = [] ∧
    (processDeltas reg1 [⟨7, 0, ""⟩, ⟨SchedulingDelta_PLACE, 1, "r1"⟩]).fatal ≠ none := by
  decide

/-- C4: for every registry state with TaskID 1 → pod and ResourceID r1 → node,
the batch [{PLACE, 1, r1}, {MIGRATE, 1, _}, {NOOP, _, _}] is applied strictly
sequentially in engine-returned order: the resulting trace is exactly
[BindPodToNode, DeletePod] in that order, with no other calls and no fatal
outcome. -/
theorem C4_batch_order_trace (s : K8sState) (pod : PodIdentifier) (node : String)
    (rid2 r3 : String) (t3 : Nat)
    (h1 : lookupTask s 1 = some pod) (h2 : lookupRes s "r1" = some node) :
    processDeltas s
        [⟨SchedulingDelta_PLACE, 1, "r1"⟩, ⟨SchedulingDelta_MIGRATE, 1, rid2⟩,
         ⟨SchedulingDelta_NOOP, t3, r3⟩] =
      ⟨s, [Call.BindPodToNode pod.Name pod.Namespace node,
           Call.DeletePod pod.Name pod.Namespace], none⟩ := by
  norm_num [processDeltas, processDelta, h1, h2, SchedulingDelta_PLACE,
    SchedulingDelta_PREEMPT, SchedulingDelta_MIGRATE, SchedulingDelta_NOOP]

/-- C4 witness: the concrete registry reg1. -/
theorem C4_batch_order_trace_witness :
    processDeltas reg1
        [⟨SchedulingDelta_PLACE, 1, "r1"⟩, ⟨SchedulingDelta_MIGRATE, 1, "rX"⟩,
         ⟨SchedulingDelta_NOOP, 0, ""⟩] =
      ⟨reg1, [Call.BindPodToNode "podA" "nsA" "nodeX",
              Call.DeletePod "podA" "nsA"], none⟩ :=
  C4_batch_order_trace reg1 ⟨"podA", "nsA"⟩ "nodeX" "rX" "" 0 rfl rfl

/-- C5: for every registry state containing TaskID 5 → (podA, nsA), dispatching
a PREEMPT delta for task 5 yields exactly the trace [DeletePod podA nsA] — one
removal, no bind — and the same holds for a MIGRATE delta for task 5. -/
theorem C5_preempt_migrate_remove_once (s : K8sState) (r r2 : String)
    (h : lookupTask s 5 = some ⟨"podA", "nsA"⟩) :
    processDelta s ⟨SchedulingDelta_PREEMPT, 5, r⟩ =
        ⟨s, [Call.DeletePod "podA" "nsA"], none⟩ ∧
      processDelta s ⟨SchedulingDelta_MIGRATE, 5, r2⟩ =
        ⟨s, [Call.DeletePod "podA" "nsA"], none⟩ := by
  constructor <;> norm_num [processDelta, h, SchedulingDelta_PLACE,
    SchedulingDelta_PREEMPT, SchedulingDelta_MIGRATE]

/-- C5 witness: the concrete registry regA. -/
theorem C5_preempt_migrate_remove_once_witness :
    processDelta regA ⟨SchedulingDelta_PREEMPT, 5, "r9"⟩ =
        ⟨regA, [Call.DeletePod "podA" "nsA"], none⟩ ∧
      processDelta regA ⟨SchedulingDelta_MIGRATE, 5, "r8"⟩ =
        ⟨regA, [Call.DeletePod "podA" "nsA"], none⟩ :=
  C5_preempt_migrate_remove_once regA "r9" "r8" rfl

/-- C6: for every probe sequence whose first invocation answers healthy, the
readiness gate returns success at elapsed time 0: `wait.PollImmediate` invokes
the condition immediately, so no poll interval is waited before or after the
first probe. -/
theorem C6_first_probe_success_immediate (check : Nat → CheckOutcome)
    (h : checkToBool (check 0) = true) :
    WaitForFirmamentService check = GateResult.ready 0 := by
  simp [WaitForFirmamentService, pollImmediate, pollImmediateGo,
    firmamentPollIntervalSec, firmamentTimeoutSec, h]

/-- C6 witness: a probe that is healthy from the start. -/
theorem C6_first_probe_success_immediate_witness :
    WaitForFirmamentService (fun _ => CheckOutcome.ok true) = GateResult.ready 0 :=
  C6_first_probe_success_immediate (fun _ => CheckOutcome.ok true) rfl

/-- C7 (amended): the readiness gate reports its fatal timeout exactly when
every probe whose elapsed time fits in the hard-coded 600-second window
answers unhealthy — in particular the timeout is never reported before the
whole window has been probed through. -/
theorem C7_timeout_only_after_window (check : Nat → CheckOutcome) :
    WaitForFirmamentService check = GateResult.fatalTimeout ↔
      ∀ k, k * firmamentPollIntervalSec ≤ firmamentTimeoutSec →
        checkToBool (check k) = false := by
  have h := pollImmediateGo_eq_none firmamentPollIntervalSec
    (fun k => checkToBool (check k)) (firmamentTimeoutSec / firmamentPollIntervalSec + 1) 0
  have hgate : WaitForFirmamentService check = GateResult.fatalTimeout ↔
      pollImmediateGo firmamentPollIntervalSec (fun k => checkToBool (check k))
        (firmamentTimeoutSec / firmamentPollIntervalSec + 1) 0 = none := by
    unfold WaitForFirmamentService pollImmediate
    cases hpoll : pollImmediateGo firmamentPollIntervalSec (fun k => checkToBool (check k))
        (firmamentTimeoutSec / firmamentPollIntervalSec + 1) 0 <;> simp [hpoll]
  rw [hgate, h]
  simp only [Nat.zero_add]
  constructor
  · intro hall k hk
    refine hall k ?_
    unfold firmamentPollIntervalSec firmamentTimeoutSec at hk ⊢
    omega
  · intro hall j hj
    refine hall j ?_
    unfold firmamentPollIntervalSec firmamentTimeoutSec at hj ⊢
    omega

/-- C7 witness: a probe that always fails with a transport error leads to the
fatal timeout. -/
theorem C7_timeout_only_after_window_witness :
    WaitForFirmamentService (fun _ => CheckOutcome.err) = GateResult.fatalTimeout :=
  (C7_timeout_only_after_window (fun _ => CheckOutcome.err)).mpr (fun _ _ => rfl)

set_option maxRecDepth 4000 in
/-- C7 counterexample: the claim says the readiness timeout and poll interval
are configuration parameters supplied once at process start (with defaults).
The process-start configuration surface is exactly the nine flags declared in
`init()` (see `configFlags`), and none of them is a readiness timeout or poll
interval — those are the hard-coded literals `2*time.Second` and
`10*time.Minute` inside `WaitForFirmamentService`.  Accordingly a probe that
first becomes healthy at invocation 301 (elapsed 602 s) still hits the fatal
timeout at the hard-coded 600-second bound, which no configuration can move. -/
theorem C7_timeout_not_configurable :
    (configFlags.all (fun f => !(f.1 == "readinessTimeout" || f.1 == "pollInterval" ||
        f.1 == "readinessPollInterval" || f.1 == "firmamentTimeout"))) = true ∧
      WaitForFirmamentService (fun k => CheckOutcome.ok (decide (301 ≤ k))) =
        GateResult.fatalTimeout := by
  decide

/-- C8: a health-probe invocation that fails with a transport error is treated
identically to a probe answering "not ready": replacing every transport error
by an explicit unhealthy answer leaves the gate's behavior unchanged — the
error is never escalated, and polling continues at the same interval. -/
theorem C8_transport_error_is_not_ready (check : Nat → CheckOutcome) :
    WaitForFirmamentService check =
      WaitForFirmamentService (fun k => CheckOutcome.ok (checkToBool (check k))) :=
  rfl

/-- C9: dispatching any delta, or any batch of deltas, leaves both registry
mappings unchanged: the dispatcher only reads `TaskIDToPod` and `ResIDToNode`
and never inserts, updates, or deletes entries. -/
theorem C9_dispatch_preserves_registry (s : K8sState) (d : SchedulingDelta)
    (ds : List SchedulingDelta) :
    (processDelta s d).state = s ∧ (processDeltas s ds).state = s :=
  ⟨processDelta_state s d, processDeltas_state s ds⟩

/-- C10: PREEMPT and MIGRATE are handled by one identical code path: for every
registry state, taskID and resourceID, dispatching the PREEMPT delta produces
exactly the same result (state, trace, fatal outcome) as dispatching the
MIGRATE delta. -/
theorem C10_preempt_migrate_same_path (s : K8sState) (t : Nat) (r : String) :
    processDelta s ⟨SchedulingDelta_PREEMPT, t, r⟩ =
      processDelta s ⟨SchedulingDelta_MIGRATE, t, r⟩ :=
  rfl
